import Mathlib

/-!
Shallow embedding of the `ooo-icp-canister` leave-tracker canister
(`src/index.ts`, the variant shipped as `src/unnamed/part_001`, together
with `src/src/utils.ts` and the constants file).

Modelling conventions:
- `number`-typed fields (`availableDays`, `days`, timestamps) are modelled
  as `Int`: every value they take in the modelled flows is an integer that
  a float64 represents exactly, and all arithmetic performed on them
  (addition, subtraction, comparison) is exact on such integers.
- `Principal` is modelled as `String` with value equality.
- The two `StableBTreeMap`s are modelled as association lists with
  key-replacing insert; `.values()` is the list of payloads in storage
  order.
- Ambient effects (`ic.caller()`, `ic.time()`, `uuidv4()`,
  `new Date().getFullYear()` / `new Date(ts).getFullYear()`) and the two
  external validators imported from libraries or applied as regexes
  (`isValidUUID` from the `uuid` package, `isValidEmail`'s regex) are
  supplied by an `Env` record, matching the spec's treatment of identity,
  clock and validation plumbing as external collaborators.
- JavaScript truthiness is translated pointwise: a missing optional field
  is falsy, `false` is falsy, `0` is falsy, `""` is falsy; objects are
  truthy.
- `Result<T, string>` is `Except String T`.
-/

/-- Key/value lookup in an association list (first match), modelling
`StableBTreeMap.get`. -/
def mapGet {κ ν : Type} [DecidableEq κ] : List (κ × ν) → κ → Option ν
  | [], _ => none
  | (k0, v0) :: rest, key => if k0 = key then some v0 else mapGet rest key

/-- Key-replacing insert, modelling `StableBTreeMap.insert`. -/
def mapInsert {κ ν : Type} [DecidableEq κ] : List (κ × ν) → κ → ν → List (κ × ν)
  | [], key, val => [(key, val)]
  | (k0, v0) :: rest, key, val =>
    if k0 = key then (key, val) :: rest else (k0, v0) :: mapInsert rest key val

/-- Removal returning the removed value, modelling `StableBTreeMap.remove`. -/
def mapRemove {κ ν : Type} [DecidableEq κ] : List (κ × ν) → κ → Option ν × List (κ × ν)
  | [], _ => (none, [])
  | (k0, v0) :: rest, key =>
    if k0 = key then (some v0, rest)
    else
      let r := mapRemove rest key
      (r.1, (k0, v0) :: r.2)

/-- `StableBTreeMap.values()`. -/
def mapValues {κ ν : Type} (m : List (κ × ν)) : List ν := m.map Prod.snd

/-- `src/constants.ts`: `DEFAULT_AVAILABLE_DAYS = 21`. -/
def DEFAULT_AVAILABLE_DAYS : Int := 21

/-- `src/constants.ts`: the `LeaveStatuses` object. -/
def LeaveStatuses.PENDING : String := "PENDING"

def LeaveStatuses.APPROVED : String := "APPROVED"

def LeaveStatuses.REJECTED : String := "REJECTED"

/-- `Object.values(LeaveStatuses)`. -/
def leaveStatusValues : List String :=
  [LeaveStatuses.PENDING, LeaveStatuses.APPROVED, LeaveStatuses.REJECTED]

/-- `src/types.ts` `User` record. -/
structure User where
  id : String
  name : String
  email : String
  isActive : Bool
  isAdmin : Bool
  availableDays : Int
  createdAt : Nat
  updatedAt : Option Nat
  deriving Repr, DecidableEq

/-- `src/types.ts` `Leave` record. -/
structure Leave where
  id : String
  userId : String
  startDate : Int
  endDate : Int
  days : Int
  status : String
  createdAt : Nat
  updatedAt : Option Nat
  deriving Repr, DecidableEq

/-- `src/types.ts` `UserPayload`: all fields optional. -/
structure UserPayload where
  id : Option String := none
  name : Option String := none
  email : Option String := none
  isActive : Option Bool := none
  isAdmin : Option Bool := none
  availableDays : Option Int := none
  deriving Repr, DecidableEq

/-- `src/types.ts` `PromoteUserPayload`. -/
structure PromoteUserPayload where
  id : Option String
  isAdmin : Option Bool := none
  isActive : Option Bool := none
  deriving Repr, DecidableEq

/-- `src/types.ts` `CreateOrEditUserPayload`. -/
structure CreateOrEditUserPayload where
  name : String
  email : String
  deriving Repr, DecidableEq

/-- `src/types.ts` `LeavePayload`. -/
structure LeavePayload where
  startDate : Int
  endDate : Int
  deriving Repr, DecidableEq

/-- The two stable maps declared at the top of `index.ts`. -/
structure CanisterState where
  leaveStorage : List (String × Leave)
  userStorage : List (String × User)
  deriving Repr, DecidableEq

/-- Equality of `Result` values (`Except`) is decidable when both payload
types have decidable equality; used to evaluate concrete scenarios. -/
instance {ε α : Type} [DecidableEq ε] [DecidableEq α] : DecidableEq (Except ε α) := fun x y =>
  match x, y with
  | .error e1, .error e2 => decidable_of_iff (e1 = e2) (by simp)
  | .error _, .ok _ => isFalse (by simp)
  | .ok _, .error _ => isFalse (by simp)
  | .ok a1, .ok a2 => decidable_of_iff (a1 = a2) (by simp)

/-- Ambient call context and external collaborators (see module docstring). -/
structure Env where
  caller : String
  time : Nat
  newUuid : String
  currentYear : Int
  getFullYear : Int → Int
  isValidEmail : String → Bool
  isValidUUID : String → Bool

/-- `src/utils.ts` `findDiffInDays`: `Math.round(Math.abs((end - start) / oneDay))`,
with `0` mapped to `1`.  `oneDay = 24*60*60*1000 = 86400000`; as `86400000`
is even, JavaScript's round-half-up `Math.round(n / d) = ⌊(n + d/2) / d⌋`
is Nat division of `n + 43200000` by `86400000`. -/
def findDiffInDays (startDate endDate : Int) : Int :=
  let diffDays : Int := (((endDate - startDate).natAbs + 43200000) / 86400000 : Nat)
  if diffDays = 0 then 1 else diffDays

/-- `index.ts` helper `isAdmin()`: caller present in `userStorage` and
`isAdmin` truthy. -/
def isAdmin (s : CanisterState) (env : Env) : Bool :=
  match mapGet s.userStorage env.caller with
  | none => false
  | some user => user.isAdmin

/-- `index.ts` helper `isActive()`: caller present in `userStorage` and
`isActive` truthy. -/
def isActive (s : CanisterState) (env : Env) : Bool :=
  match mapGet s.userStorage env.caller with
  | none => false
  | some user => user.isActive

/-- The straight-line field mutations of `updateUserParams` before the
email branch: bump `updatedAt`, then conditionally apply `availableDays`,
`isActive`, `isAdmin` and `name`.  Note the JavaScript truthiness checks:
a `false` boolean, a `0` balance and an empty string are all skipped,
exactly as `if (payload.field)` skips them. -/
def userWithProfileFields (env : Env) (user : User) (payload : UserPayload) : User :=
  let u1 : User := { user with updatedAt := some env.time }
  let u2 : User :=
    match payload.availableDays with
    | some d => if d ≠ 0 then { u1 with availableDays := d } else u1
    | none => u1
  let u3 : User := if payload.isActive = some true then { u2 with isActive := true } else u2
  let u4 : User := if payload.isAdmin = some true then { u3 with isAdmin := true } else u3
  match payload.name with
  | some n => if n ≠ "" then { u4 with name := n } else u4
  | none => u4

/-- `index.ts` helper `updateUserParams(payload)`. -/
def updateUserParams (s : CanisterState) (env : Env) (payload : UserPayload) :
    Except String User × CanisterState :=
  match payload.id with
  | none => (.error "ID cannot be empty! Please enter valid data.", s)
  | some pid =>
    match mapGet s.userStorage pid with
    | none =>
      (.error ("Could not update a user with the given id=" ++ pid ++ ". User not found!"), s)
    | some user =>
      let u5 : User := userWithProfileFields env user payload
      match payload.email with
      | some e =>
        if e ≠ "" then
          if ¬ env.isValidEmail e then
            (.error "Incorrect email! Please enter valid email.", s)
          else if (mapValues s.userStorage).any (fun u => u.email = e) then
            (.error "User with given email address exists already!", s)
          else
            let u6 : User := { u5 with email := e }
            (.ok u6, { s with userStorage := mapInsert s.userStorage user.id u6 })
        else
          (.ok u5, { s with userStorage := mapInsert s.userStorage user.id u5 })
      | none =>
        (.ok u5, { s with userStorage := mapInsert s.userStorage user.id u5 })

/-- The `"ADD" | "SUBTRACT"` operation argument of
`updateUsersAvailableDays`. -/
inductive BalanceOp where
  | ADD
  | SUBTRACT
  deriving Repr, DecidableEq

/-- `index.ts` helper `updateUsersAvailableDays(userId, leaveDays, operation)`.
`!user.Some.availableDays` is truthiness: a balance of exactly `0` takes the
error branch. -/
def updateUsersAvailableDays (s : CanisterState) (env : Env) (userId : String)
    (leaveDays : Int) (operation : BalanceOp) : Except String User × CanisterState :=
  match mapGet s.userStorage userId with
  | none =>
    (.error ("Could not update status of the leave with the given id=" ++ userId ++ ". Something went wrong!"), s)
  | some user =>
    if user.availableDays = 0 then
      (.error ("Could not update status of the leave with the given id=" ++ userId ++ ". Something went wrong!"), s)
    else
      let availableDays : Int :=
        match operation with
        | .ADD => user.availableDays + leaveDays
        | .SUBTRACT => user.availableDays - leaveDays
      updateUserParams s env { id := some userId, availableDays := some availableDays }

/-- `index.ts` `getUser(id)`. -/
def getUser (s : CanisterState) (env : Env) (id : String) :
    Except String User × CanisterState :=
  let _ := env
  match mapGet s.userStorage id with
  | some userData => (.ok userData, s)
  | none => (.error ("User with given id=" ++ id ++ " not found!"), s)

/-- `index.ts` `getUsers()`. -/
def getUsers (s : CanisterState) (env : Env) :
    Except String (List User) × CanisterState :=
  if ¬ isAdmin s env then
    (.error "You do not have the permission for this operation!", s)
  else
    (.ok (mapValues s.userStorage), s)

/-- `index.ts` `createUser(payload)`.  `!payload.name` / `!payload.email`
are truthiness checks on strings (empty string is falsy); `isActive` and
`isAdmin` are read from `userStorage.isEmpty()` before the insert. -/
def createUser (s : CanisterState) (env : Env) (payload : CreateOrEditUserPayload) :
    Except String User × CanisterState :=
  if payload.name = "" ∨ payload.email = "" then
    (.error "Name and Email data are required! Please enter valid data.", s)
  else if ¬ env.isValidEmail payload.email then
    (.error "Incorrect email! Please enter valid email.", s)
  else if (mapValues s.userStorage).any (fun user => user.email = payload.email) then
    (.error "User with given email address exists already!", s)
  else
    let user : User :=
      { name := payload.name
        email := payload.email
        id := env.caller
        createdAt := env.time
        updatedAt := some env.time
        isActive := s.userStorage.isEmpty
        isAdmin := s.userStorage.isEmpty
        availableDays := DEFAULT_AVAILABLE_DAYS }
    (.ok user, { s with userStorage := mapInsert s.userStorage user.id user })

/-- `index.ts` `promoteUser(payload)`.  The two payload mutations
(`if (payload.isAdmin) payload.isActive = true` and
`if (payload.isActive === false) payload.isAdmin = false`) are applied in
source order before delegating to `updateUserParams`. -/
def promoteUser (s : CanisterState) (env : Env) (payload : PromoteUserPayload) :
    Except String User × CanisterState :=
  if ¬ isAdmin s env then
    (.error "You do not have the permission for this operation!", s)
  else
    match payload.id with
    | none =>
      (.error "Could not update a user with the given id=undefined. User not found!", s)
    | some pid =>
      if (mapGet s.userStorage pid).isNone then
        (.error ("Could not update a user with the given id=" ++ pid ++ ". User not found!"), s)
      else if pid = env.caller then
        (.error "You can't edit yourself!", s)
      else
        let p1 : PromoteUserPayload :=
          if payload.isAdmin = some true then { payload with isActive := some true } else payload
        let p2 : PromoteUserPayload :=
          if p1.isActive = some false then { p1 with isAdmin := some false } else p1
        updateUserParams s env { id := some pid, isAdmin := p2.isAdmin, isActive := p2.isActive }

/-- `index.ts` `updateUser(payload)`. -/
def updateUser (s : CanisterState) (env : Env) (payload : CreateOrEditUserPayload) :
    Except String User × CanisterState :=
  if payload.name = "" ∧ payload.email = "" then
    (.error "Name and Email cannot be empty! Please enter valid data.", s)
  else
    updateUserParams s env
      { id := some env.caller, name := some payload.name, email := some payload.email }

/-- `index.ts` `getMyLeaveRequests()`. -/
def getMyLeaveRequests (s : CanisterState) (env : Env) :
    Except String (List Leave) × CanisterState :=
  if ¬ isActive s env then
    (.error "Your account has not been activated yet! Please contact support for account confirmation.", s)
  else
    (.ok ((mapValues s.leaveStorage).filter (fun x => x.userId = env.caller)), s)

/-- `index.ts` `getMyLeaveRequestsByStatus(status)`.  The filter on the
success path is the one in the source: by caller identity only — the
`status` argument is validated but never used to filter. -/
def getMyLeaveRequestsByStatus (s : CanisterState) (env : Env) (status : String) :
    Except String (List Leave) × CanisterState :=
  if ¬ isActive s env then
    (.error "Your account has not been activated yet! Please contact support for account confirmation.", s)
  else if status = "" ∨ ¬ (status ∈ leaveStatusValues) then
    (.error "Please enter valid Status! Statuses are - PENDING, APPROVED and REJECTED", s)
  else
    (.ok ((mapValues s.leaveStorage).filter (fun x => x.userId = env.caller)), s)

/-- `index.ts` `requestLeave(payload)`.  The overlap loop in the source is
`leaves.forEach((currentLeave) => { if (...) return Result.Err(...) })`:
the `return` only exits the `forEach` callback and its value is discarded,
so the loop has no effect on control flow or state and is omitted here.
The leave literal spreads `...payload` after `days: diffDays`, which
rewrites `startDate`/`endDate` with the payload's own values and leaves
`days` at the computed value. -/
def requestLeave (s : CanisterState) (env : Env) (payload : LeavePayload) :
    Except String Leave × CanisterState :=
  let userId := env.caller
  match mapGet s.userStorage userId with
  | none => (.error "Could not find the User with the given ID!", s)
  | some user =>
    if ¬ isActive s env then
      (.error "Your account has not been activated yet! Please contact support for account confirmation.", s)
    else
      let startDate := payload.startDate
      let endDate := payload.endDate
      if startDate ≥ endDate then
        (.error "Start date must be before end date!", s)
      else
        let diffDays := findDiffInDays startDate endDate
        if diffDays = 0 then
          (.error "Leave should be atleast one day!", s)
        else if user.availableDays < diffDays then
          (.error "You are exceeding your available days for leave!", s)
        else if env.getFullYear startDate > env.currentYear ∨
            env.getFullYear endDate > env.currentYear ∨
            env.getFullYear startDate < env.currentYear ∨
            env.getFullYear endDate < env.currentYear then
          (.error "Leave period should be in the current calendar year!", s)
        else
          let leave : Leave :=
            { id := env.newUuid
              userId := userId
              createdAt := env.time
              updatedAt := none
              status := LeaveStatuses.PENDING
              days := diffDays
              startDate := startDate
              endDate := endDate }
          let s1 : CanisterState :=
            { s with leaveStorage := mapInsert s.leaveStorage leave.id leave }
          let s2 := (updateUsersAvailableDays s1 env leave.userId leave.days .SUBTRACT).2
          (.ok leave, s2)

/-- `index.ts` `updateLeave(id, payload)`. -/
def updateLeave (s : CanisterState) (env : Env) (id : String) (payload : LeavePayload) :
    Except String Leave × CanisterState :=
  if ¬ env.isValidUUID id then
    (.error "Please enter valid Leave ID!", s)
  else
    match mapGet s.leaveStorage id with
    | none =>
      (.error ("Could not update leave with the given id=" ++ id ++ ". Leave not found!"), s)
    | some leave =>
      if leave.userId ≠ env.caller then
        (.error "You do not have the permission for this operation!", s)
      else
        let diffDays := findDiffInDays payload.startDate payload.endDate
        if diffDays ≤ 0 then
          (.error "Leave should be atleast one day!", s)
        else
          let updatedLeave : Leave :=
            { leave with
                startDate := payload.startDate
                endDate := payload.endDate
                days := diffDays
                updatedAt := some env.time }
          (.ok updatedLeave,
            { s with leaveStorage := mapInsert s.leaveStorage leave.id updatedLeave })

/-- `index.ts` `deleteLeave(id)`.  The guard is
`!leave.Some || leave.None || leave.Some.status === "ACCEPTED"` — the
literal string `"ACCEPTED"`, which is not one of the three values of
`LeaveStatuses`.  The refund runs only when the removed leave was
`PENDING`. -/
def deleteLeave (s : CanisterState) (env : Env) (id : String) :
    Except String Leave × CanisterState :=
  if ¬ env.isValidUUID id then
    (.error "Please enter valid Leave ID!", s)
  else
    match mapGet s.leaveStorage id with
    | none =>
      (.error "Leave is already accepted so you can't delete/cancel leave!", s)
    | some leave =>
      if leave.status = "ACCEPTED" then
        (.error "Leave is already accepted so you can't delete/cancel leave!", s)
      else
        match mapRemove s.leaveStorage id with
        | (some deletedLeave, rest) =>
          let s1 : CanisterState := { s with leaveStorage := rest }
          let s2 : CanisterState :=
            if deletedLeave.status = LeaveStatuses.PENDING then
              (updateUsersAvailableDays s1 env deletedLeave.userId deletedLeave.days .ADD).2
            else s1
          (.ok deletedLeave, s2)
        | (none, _) =>
          (.error ("Could not delete a Leave with the given id=" ++ id ++ ". Leave not found!"), s)

/-- `index.ts` `updateLeaveStatus(id, status)`.  On `REJECTED` the helper
is called with `"ADD"`, on every other status with `"SUBTRACT"`; its
result is discarded, so the operation returns `Ok` regardless. -/
def updateLeaveStatus (s : CanisterState) (env : Env) (id status : String) :
    Except String Leave × CanisterState :=
  if ¬ isAdmin s env then
    (.error "You do not have the permission for this operation!", s)
  else if ¬ env.isValidUUID id then
    (.error "Please enter valid Leave ID!", s)
  else
    match mapGet s.leaveStorage id with
    | none =>
      (.error ("Could not update status of the leave with the given id=" ++ id ++ ". Leave not found!"), s)
    | some leave =>
      let updatedLeave : Leave := { leave with status := status, updatedAt := some env.time }
      let s1 : CanisterState :=
        { s with leaveStorage := mapInsert s.leaveStorage leave.id updatedLeave }
      let s2 : CanisterState :=
        if status = LeaveStatuses.REJECTED then
          (updateUsersAvailableDays s1 env leave.userId leave.days .ADD).2
        else
          (updateUsersAvailableDays s1 env leave.userId leave.days .SUBTRACT).2
      (.ok updatedLeave, s2)

/-- The overlap condition from `requestLeave`'s loop body (and §4.2 step 7
of the spec): either endpoint of the second range lies within the closed
first range, or the second range contains the first. -/
def leavePeriodsOverlap (s1 e1 s2 e2 : Int) : Bool :=
  (s1 ≤ s2 && s2 ≤ e1) || (s1 ≤ e2 && e2 ≤ e1) || (s2 ≤ s1 && e1 ≤ e2)

/-- Modelled from the spec (§4.2 step 4): `round(|endDate − startDate| in
whole days)` — one whole day being `86400000` milliseconds — `with the
conventional floor of at least 1 day`.  Stated over exact rational
arithmetic with Mathlib's `round`, which is round-half-up, as JavaScript's
`Math.round` is. -/
def specLeaveDays (startDate endDate : Int) : Int :=
  max 1 (round (((|endDate - startDate| : Int) : ℚ) / 86400000))

/-! Concrete fixtures used by counterexamples and witnesses. -/

/-- An administrator account (the shape the first registered user gets). -/
def adminUser : User :=
  { id := "a", name := "A", email := "a@example.com", isActive := true, isAdmin := true
    availableDays := 21, createdAt := 0, updatedAt := none }

/-- An ordinary active employee with the default balance. -/
def employeeUser : User :=
  { id := "u", name := "U", email := "u@example.com", isActive := true, isAdmin := false
    availableDays := 21, createdAt := 0, updatedAt := none }

/-- A pending 4-day leave of `employeeUser` spanning days 0 through 4. -/
def pendingLeave : Leave :=
  { id := "leave-1", userId := "u", startDate := 0, endDate := 345600000
    days := 4, status := "PENDING", createdAt := 0, updatedAt := none }

/-- Baseline state: an admin, an employee, one pending leave. -/
def baseState : CanisterState :=
  { leaveStorage := [("leave-1", pendingLeave)]
    userStorage := [("a", adminUser), ("u", employeeUser)] }

/-- Environment for a call by `c`: permissive validators, fixed clock. -/
def envFor (c : String) : Env :=
  { caller := c, time := 100, newUuid := "leave-2", currentYear := 2024
    getFullYear := fun _ => 2024, isValidEmail := fun _ => true, isValidUUID := fun _ => true }

/-- `baseState` with the single leave already `APPROVED`. -/
def approvedState : CanisterState :=
  { baseState with
      leaveStorage := [("leave-1", { pendingLeave with status := "APPROVED" })] }

/-- An active administrator as a promotion target. -/
def targetUser : User :=
  { id := "t", name := "T", email := "t@example.com", isActive := true, isAdmin := true
    availableDays := 21, createdAt := 0, updatedAt := none }

/-- State for the promotion scenario: caller `a`, target `t`. -/
def promoteState : CanisterState :=
  { leaveStorage := [], userStorage := [("a", adminUser), ("t", targetUser)] }

/-- `baseState` with the employee's balance drained to `0`. -/
def zeroBalanceState : CanisterState :=
  { baseState with
      userStorage := [("a", adminUser), ("u", { employeeUser with availableDays := 0 })] }

/-- No leaves; the employee has exactly 4 days left. -/
def fourDayState : CanisterState :=
  { leaveStorage := []
    userStorage := [("a", adminUser), ("u", { employeeUser with availableDays := 4 })] }

/-- The state of a freshly deployed canister: both maps empty. -/
def emptyState : CanisterState := { leaveStorage := [], userStorage := [] }

/-! Supporting lemmas about the map model and the day computation. -/

theorem mapGet_mapInsert_self {κ ν : Type} [DecidableEq κ] (m : List (κ × ν)) (k : κ) (v : ν) :
    mapGet (mapInsert m k v) k = some v := by
  induction m with
  | nil => simp [mapGet, mapInsert]
  | cons hd tl ih =>
    obtain ⟨k0, v0⟩ := hd
    by_cases h : k0 = k
    · simp [mapGet, mapInsert, h]
    · simp [mapGet, mapInsert, h, ih]

theorem mapRemove_fst {κ ν : Type} [DecidableEq κ] (m : List (κ × ν)) (k : κ) :
    (mapRemove m k).1 = mapGet m k := by
  induction m with
  | nil => simp [mapGet, mapRemove]
  | cons hd tl ih =>
    obtain ⟨k0, v0⟩ := hd
    by_cases h : k0 = k
    · simp [mapGet, mapRemove, h]
    · simp [mapGet, mapRemove, h, ih]

theorem findDiffInDays_pos (startDate endDate : Int) : 1 ≤ findDiffInDays startDate endDate := by
  unfold findDiffInDays
  set r : Nat := ((endDate - startDate).natAbs + 43200000) / 86400000 with hr
  simp only
  split
  · omega
  · omega

/-- JavaScript's `Math.round(n / 86400000)` on an exact nonnegative
quotient, as Nat division. -/
theorem round_div_oneDay (n : Nat) :
    round ((n : ℚ) / 86400000) = (((n + 43200000) / 86400000 : Nat) : Int) := by
  rw [round_eq]
  have h1 : (n : ℚ) / 86400000 + 1 / 2 = ((2 * n + 86400000 : Nat) : ℚ) / ((172800000 : Nat) : ℚ) := by
    push_cast
    ring
  rw [h1]
  have h2 : (((2 * n + 86400000 : Nat) : Int) : ℚ) = ((2 * n + 86400000 : Nat) : ℚ) := by
    push_cast
    ring
  rw [← h2, Rat.floor_intCast_div_natCast]
  have h3 : ((2 * n + 86400000 : Nat) : Int) / ((172800000 : Nat) : Int) =
      (((2 * n + 86400000) / 172800000 : Nat) : Int) := (Int.natCast_div _ _).symm
  rw [h3]
  congr 1
  have h4 : 2 * n + 86400000 = 2 * (n + 43200000) := by ring
  have h5 : 172800000 = 2 * 86400000 := by norm_num
  rw [h4, h5, Nat.mul_div_mul_left _ _ (by norm_num)]

/-- The code's `findDiffInDays` computes exactly the spec's formula:
round-half-up of the absolute span in whole days, with minimum 1. -/
theorem findDiffInDays_eq_specLeaveDays (startDate endDate : Int) :
    findDiffInDays startDate endDate = specLeaveDays startDate endDate := by
  unfold findDiffInDays specLeaveDays
  have harg : (((|endDate - startDate| : Int) : ℚ) / 86400000)
      = (((endDate - startDate).natAbs : Nat) : ℚ) / 86400000 := by
    push_cast [Int.cast_natAbs]
    ring
  rw [harg, round_div_oneDay]
  set r : Nat := ((endDate - startDate).natAbs + 43200000) / 86400000 with hr
  simp only
  split
  · omega
  · omega

/-- `userWithProfileFields` for the payload shape `updateUsersAvailableDays`
builds: only `id` and `availableDays` present.  A new balance of exactly `0`
is dropped by the truthiness check. -/
theorem userWithProfileFields_balanceOnly (env : Env) (user : User) (uid : String) (d : Int) :
    userWithProfileFields env user { id := some uid, availableDays := some d } =
      { user with updatedAt := some env.time
                  availableDays := if d = 0 then user.availableDays else d } := by
  unfold userWithProfileFields
  split_ifs <;> simp_all

/-- Claim C1, counterexample: `APPROVED` is a recognized status other than
`REJECTED`, yet `updateLeaveStatus` on a 4-day leave moves the owner's
balance from 21 to 17 — the code subtracts the leave's days on every
non-`REJECTED` status instead of leaving the balance unchanged. -/
theorem C1_counterexample :
    LeaveStatuses.APPROVED ∈ leaveStatusValues ∧
    LeaveStatuses.APPROVED ≠ LeaveStatuses.REJECTED ∧
    (mapGet baseState.userStorage "u").map User.availableDays = some 21 ∧
    (mapGet (updateLeaveStatus baseState (envFor "a") "leave-1"
        LeaveStatuses.APPROVED).2.userStorage "u").map User.availableDays = some 17 := by decide

/-- Claim C1, as amended: for an admin caller, a valid id and a stored
leave whose owner exists, `updateLeaveStatus(id, status)` succeeds and the
owner's balance becomes: unchanged if the stored balance is `0`; on
`REJECTED`, increased by exactly the leave's `days` unless the sum would be
exactly `0` (then unchanged); on any other status, decreased by exactly the
leave's `days` unless the difference would be exactly `0` (then
unchanged). -/
theorem C1_amended_balance_adjustment (s : CanisterState) (env : Env) (id status : String)
    (leave : Leave) (owner : User)
    (hAdm : isAdmin s env = true)
    (hUuid : env.isValidUUID id = true)
    (hLeave : mapGet s.leaveStorage id = some leave)
    (hOwner : mapGet s.userStorage leave.userId = some owner)
    (hKey : owner.id = leave.userId) :
    (updateLeaveStatus s env id status).1 =
      Except.ok { leave with status := status, updatedAt := some env.time } ∧
    (mapGet (updateLeaveStatus s env id status).2.userStorage leave.userId).map User.availableDays =
      some (if owner.availableDays = 0 then owner.availableDays
            else if status = LeaveStatuses.REJECTED then
              (if owner.availableDays + leave.days = 0 then owner.availableDays
               else owner.availableDays + leave.days)
            else
              (if owner.availableDays - leave.days = 0 then owner.availableDays
               else owner.availableDays - leave.days)) := by
  unfold updateLeaveStatus updateUsersAvailableDays updateUserParams
  simp only [hAdm, hUuid, hLeave, hOwner, hKey, userWithProfileFields_balanceOnly,
    not_true, Bool.not_eq_true, ite_false, ite_true]
  constructor
  · trivial
  · split_ifs <;> simp_all [mapGet_mapInsert_self]

/-- Witness for C1's amended theorem: rejecting the stored 4-day leave of a
21-day employee as `APPROVED` drops the balance to 17. -/
theorem C1_amended_balance_adjustment_witness :
    (mapGet (updateLeaveStatus baseState (envFor "a") "leave-1" "APPROVED").2.userStorage "u").map
      User.availableDays = some 17 := by
  have h := (C1_amended_balance_adjustment baseState (envFor "a") "leave-1" "APPROVED"
    pendingLeave employeeUser (by decide) (by decide) (by decide) (by decide) (by decide)).2
  simpa [pendingLeave, employeeUser, LeaveStatuses.REJECTED] using h

/-- Claim C2, code bug: the employee already holds the pending leave for
days 0..4, and the requested range (days 2..5) overlaps it under the
code's own overlap formula, yet the second `requestLeave` succeeds — the
overlap rejection is written as a `return` inside a `forEach` callback
whose value is discarded — and the stored leaves grow while the balance
drops from 21 to 18. -/
theorem C2_overlap_check_ineffective :
    leavePeriodsOverlap pendingLeave.startDate pendingLeave.endDate 172800000 432000000 = true ∧
    pendingLeave.userId = "u" ∧
    (requestLeave baseState (envFor "u") { startDate := 172800000, endDate := 432000000 }).1 =
      Except.ok { id := "leave-2", userId := "u", startDate := 172800000, endDate := 432000000
                  days := 3, status := "PENDING", createdAt := 100, updatedAt := none } ∧
    (mapGet (requestLeave baseState (envFor "u")
        { startDate := 172800000, endDate := 432000000 }).2.userStorage "u").map User.availableDays =
      some 18 := by decide

/-- Claim C3, code bug: `deleteLeave` only blocks the literal status
`"ACCEPTED"`, which is not one of the three recognized statuses, so an
`APPROVED` (non-`PENDING`) leave is deleted successfully — without any
refund — where the claim demands a `ConflictError` and no removal. -/
theorem C3_delete_approved_succeeds :
    (mapGet approvedState.leaveStorage "leave-1").map Leave.status = some "APPROVED" ∧
    (deleteLeave approvedState (envFor "u") "leave-1").1 =
      Except.ok { pendingLeave with status := "APPROVED" } ∧
    mapGet (deleteLeave approvedState (envFor "u") "leave-1").2.leaveStorage "leave-1" = none ∧
    (deleteLeave approvedState (envFor "u") "leave-1").2.userStorage =
      approvedState.userStorage := by decide

/-- Claim C4: once a request reaches the balance check (user present and
active, `startDate < endDate`), a computed day count exceeding the caller's
`availableDays` makes `requestLeave` fail with the insufficient-balance
validation error and the returned state is exactly the input state (both
storages untouched); conversely, when the day count is at most
`availableDays` (equality included), that failure never occurs. -/
theorem C4_insufficient_balance_rejected (s : CanisterState) (env : Env)
    (payload : LeavePayload) (user : User)
    (hUser : mapGet s.userStorage env.caller = some user)
    (hAct : isActive s env = true)
    (hDates : payload.startDate < payload.endDate) :
    (user.availableDays < findDiffInDays payload.startDate payload.endDate →
      requestLeave s env payload =
        (Except.error "You are exceeding your available days for leave!", s)) ∧
    (findDiffInDays payload.startDate payload.endDate ≤ user.availableDays →
      (requestLeave s env payload).1 ≠
        Except.error "You are exceeding your available days for leave!") := by
  have hpos := findDiffInDays_pos payload.startDate payload.endDate
  unfold requestLeave
  simp only [hUser]
  rw [if_neg (by simp [hAct]), if_neg (not_le.mpr hDates), if_neg (by omega)]
  constructor
  · intro hlt
    rw [if_pos hlt]
  · intro hle
    rw [if_neg (not_lt.mpr hle)]
    split_ifs <;> simp

/-- Witness for C4: an employee with 4 remaining days requesting a 6-day
leave is refused with the insufficient-balance error and the state is
unchanged. -/
theorem C4_insufficient_balance_rejected_witness :
    requestLeave fourDayState (envFor "u") { startDate := 0, endDate := 518400000 } =
      (Except.error "You are exceeding your available days for leave!", fourDayState) := by
  have h := (C4_insufficient_balance_rejected fourDayState (envFor "u")
    { startDate := 0, endDate := 518400000 } { employeeUser with availableDays := 4 }
    (by decide) (by decide) (by decide)).1
  exact h (by decide)

/-- Claim C5: for a valid request (active existing user, `start < end`,
both endpoints in the current year, sufficient balance, no overlapping
stored leave), `requestLeave` returns a leave whose `days` equals the
spec's formula `round(|endDate − startDate| / one day)` with minimum 1
(`specLeaveDays`), and whose every field is derived by the operation —
the caller's payload only contributes `startDate` and `endDate`, so the
day count is never taken from the input. -/
theorem C5_days_derived_from_dates (s : CanisterState) (env : Env)
    (payload : LeavePayload) (user : User)
    (hUser : mapGet s.userStorage env.caller = some user)
    (hAct : isActive s env = true)
    (hDates : payload.startDate < payload.endDate)
    (hy1 : env.getFullYear payload.startDate = env.currentYear)
    (hy2 : env.getFullYear payload.endDate = env.currentYear)
    (hBal : specLeaveDays payload.startDate payload.endDate ≤ user.availableDays)
    (_hNoOverlap : ∀ l ∈ (mapValues s.leaveStorage).filter (fun l => l.userId = env.caller),
      leavePeriodsOverlap l.startDate l.endDate payload.startDate payload.endDate = false) :
    (requestLeave s env payload).1 =
      Except.ok
        { id := env.newUuid, userId := env.caller, createdAt := env.time, updatedAt := none
          status := LeaveStatuses.PENDING
          days := specLeaveDays payload.startDate payload.endDate
          startDate := payload.startDate, endDate := payload.endDate } := by
  have hspec := findDiffInDays_eq_specLeaveDays payload.startDate payload.endDate
  have hpos := findDiffInDays_pos payload.startDate payload.endDate
  unfold requestLeave
  simp only [hUser]
  rw [if_neg (by simp [hAct]), if_neg (not_le.mpr hDates), if_neg (by omega),
    if_neg (by rw [← hspec] at hBal; omega), if_neg (by simp [hy1, hy2]), ← hspec]

/-- Witness for C5: a 4-day request (days 10..14) by the employee comes
back `PENDING` with `days = 4`, which matches `specLeaveDays`. -/
theorem C5_days_derived_from_dates_witness :
    (requestLeave baseState (envFor "u") { startDate := 864000000, endDate := 1209600000 }).1 =
      Except.ok { id := "leave-2", userId := "u", createdAt := 100, updatedAt := none
                  status := "PENDING", days := 4, startDate := 864000000, endDate := 1209600000 } := by
  have hspec := findDiffInDays_eq_specLeaveDays 864000000 1209600000
  have h := C5_days_derived_from_dates baseState (envFor "u")
    { startDate := 864000000, endDate := 1209600000 } employeeUser
    (by decide) (by decide) (by decide) (by decide) (by decide)
    (by rw [← hspec]; decide) (by decide)
  rw [h, ← hspec]
  decide

/-- Claim C6: a valid `createUser` call (nonempty name and email, email
well-formed and not already taken) returns a user whose `isActive` and
`isAdmin` are exactly `userStorage.isEmpty()` — `true`/`true` on an empty
directory, `false`/`false` otherwise — and whose `availableDays` starts at
the default 21. -/
theorem C6_createUser_defaults (s : CanisterState) (env : Env)
    (payload : CreateOrEditUserPayload)
    (hn : payload.name ≠ "") (he : payload.email ≠ "")
    (hv : env.isValidEmail payload.email = true)
    (hdup : (mapValues s.userStorage).any (fun user => user.email = payload.email) = false) :
    (createUser s env payload).1 =
      Except.ok
        { name := payload.name, email := payload.email, id := env.caller
          createdAt := env.time, updatedAt := some env.time
          isActive := s.userStorage.isEmpty, isAdmin := s.userStorage.isEmpty
          availableDays := 21 } ∧
    (s.userStorage = [] → s.userStorage.isEmpty = true) ∧
    (s.userStorage ≠ [] → s.userStorage.isEmpty = false) := by
  unfold createUser
  rw [if_neg (by simp [hn, he]), if_neg (by simp [hv]), if_neg (by simp [hdup])]
  refine ⟨rfl, ?_, ?_⟩
  · intro h
    simp [h]
  · intro h
    cases hs : s.userStorage <;> simp_all

/-- Witness for C6: the first user created in an empty directory comes
back active, admin, with 21 days. -/
theorem C6_createUser_defaults_witness :
    (createUser emptyState (envFor "x") { name := "N", email := "n@example.com" }).1 =
      Except.ok { name := "N", email := "n@example.com", id := "x", createdAt := 100
                  updatedAt := some 100, isActive := true, isAdmin := true, availableDays := 21 } := by
  have h := (C6_createUser_defaults emptyState (envFor "x")
    { name := "N", email := "n@example.com" } (by decide) (by decide) (by decide) (by decide)).1
  exact h

/-- Claim C7, code bug: `promoteUser` with `isActive = false` on an active
admin target leaves the stored record's `isAdmin` (and `isActive`) at
`true` — `promoteUser` does assign `payload.isAdmin = false`, but
`updateUserParams` applies boolean fields through truthiness checks
(`if (payload.isActive)`, `if (payload.isAdmin)`), so `false` values are
silently dropped and deactivation never strips the admin flag. -/
theorem C7_deactivation_does_not_strip_admin :
    targetUser.isAdmin = true ∧ targetUser.isActive = true ∧
    (promoteUser promoteState (envFor "a") { id := some "t", isActive := some false }).1.isOk = true ∧
    (mapGet (promoteUser promoteState (envFor "a")
        { id := some "t", isActive := some false }).2.userStorage "t").map User.isAdmin = some true ∧
    (mapGet (promoteUser promoteState (envFor "a")
        { id := some "t", isActive := some false }).2.userStorage "t").map User.isActive =
      some true := by decide

/-- Claim C8, code bug: `getMyLeaveRequestsByStatus` validates the status
argument but then filters the stored leaves by caller identity only — a
query for `APPROVED` returns the caller's `PENDING` leave instead of the
empty list the claim requires. -/
theorem C8_status_filter_missing :
    (mapGet baseState.leaveStorage "leave-1").map Leave.status = some "PENDING" ∧
    "APPROVED" ∈ leaveStatusValues ∧
    (getMyLeaveRequestsByStatus baseState (envFor "u") "APPROVED").1 =
      Except.ok [pendingLeave] := by decide

/-! Shape lemmas for C9: each mutating operation either returns its input
state unchanged or returns an `ok` result, and queries never change the
state. -/

theorem updateUserParams_shape (s : CanisterState) (env : Env) (p : UserPayload) :
    (updateUserParams s env p).2 = s ∨ ∃ u, (updateUserParams s env p).1 = Except.ok u := by
  unfold updateUserParams
  rcases _hid : p.id with _ | pid
  · left; rfl
  · try dsimp only
    rcases _hu : mapGet s.userStorage pid with _ | user
    · left; rfl
    · try dsimp only
      rcases _he : p.email with _ | e
      · right; exact ⟨_, rfl⟩
      · try dsimp only
        split
        · split
          · left; rfl
          · split
            · left; rfl
            · right; exact ⟨_, rfl⟩
        · right; exact ⟨_, rfl⟩

theorem updateUsersAvailableDays_shape (s : CanisterState) (env : Env) (uid : String)
    (d : Int) (op : BalanceOp) :
    (updateUsersAvailableDays s env uid d op).2 = s ∨
      ∃ u, (updateUsersAvailableDays s env uid d op).1 = Except.ok u := by
  unfold updateUsersAvailableDays
  rcases _hu : mapGet s.userStorage uid with _ | user
  · left; rfl
  · try dsimp only
    split
    · left; rfl
    · exact updateUserParams_shape s env _

theorem getUser_shape (s : CanisterState) (env : Env) (id : String) :
    (getUser s env id).2 = s := by
  unfold getUser
  rcases _h : mapGet s.userStorage id with _ | u <;> rfl

theorem getUsers_shape (s : CanisterState) (env : Env) :
    (getUsers s env).2 = s := by
  unfold getUsers
  split <;> rfl

theorem getMyLeaveRequests_shape (s : CanisterState) (env : Env) :
    (getMyLeaveRequests s env).2 = s := by
  unfold getMyLeaveRequests
  split <;> rfl

theorem getMyLeaveRequestsByStatus_shape (s : CanisterState) (env : Env) (st : String) :
    (getMyLeaveRequestsByStatus s env st).2 = s := by
  unfold getMyLeaveRequestsByStatus
  split
  · rfl
  · split <;> rfl

theorem createUser_shape (s : CanisterState) (env : Env) (p : CreateOrEditUserPayload) :
    (createUser s env p).2 = s ∨ ∃ u, (createUser s env p).1 = Except.ok u := by
  unfold createUser
  split
  · left; rfl
  · split
    · left; rfl
    · split
      · left; rfl
      · right; exact ⟨_, rfl⟩

theorem promoteUser_shape (s : CanisterState) (env : Env) (p : PromoteUserPayload) :
    (promoteUser s env p).2 = s ∨ ∃ u, (promoteUser s env p).1 = Except.ok u := by
  unfold promoteUser
  split
  · left; rfl
  · rcases _hid : p.id with _ | pid
    · left; rfl
    · try dsimp only
      split
      · left; rfl
      · split
        · left; rfl
        · exact updateUserParams_shape s env _

theorem updateUser_shape (s : CanisterState) (env : Env) (p : CreateOrEditUserPayload) :
    (updateUser s env p).2 = s ∨ ∃ u, (updateUser s env p).1 = Except.ok u := by
  unfold updateUser
  split
  · left; rfl
  · exact updateUserParams_shape s env _

theorem requestLeave_shape (s : CanisterState) (env : Env) (p : LeavePayload) :
    (requestLeave s env p).2 = s ∨ ∃ l, (requestLeave s env p).1 = Except.ok l := by
  unfold requestLeave
  try dsimp only
  rcases _hu : mapGet s.userStorage env.caller with _ | user
  · left; rfl
  · try dsimp only
    split
    · left; rfl
    · split
      · left; rfl
      · try dsimp only
        split
        · left; rfl
        · split
          · left; rfl
          · split
            · left; rfl
            · right; exact ⟨_, rfl⟩

theorem updateLeave_shape (s : CanisterState) (env : Env) (id : String) (p : LeavePayload) :
    (updateLeave s env id p).2 = s ∨ ∃ l, (updateLeave s env id p).1 = Except.ok l := by
  unfold updateLeave
  split
  · left; rfl
  · rcases _h : mapGet s.leaveStorage id with _ | leave
    · left; rfl
    · try dsimp only
      split
      · left; rfl
      · try dsimp only
        split
        · left; rfl
        · right; exact ⟨_, rfl⟩

theorem deleteLeave_shape (s : CanisterState) (env : Env) (id : String) :
    (deleteLeave s env id).2 = s ∨ ∃ l, (deleteLeave s env id).1 = Except.ok l := by
  unfold deleteLeave
  split
  · left; rfl
  · rcases _h : mapGet s.leaveStorage id with _ | leave
    · left; rfl
    · try dsimp only
      split
      · left; rfl
      · rcases _hr : mapRemove s.leaveStorage id with ⟨o, rest⟩
        rcases o with _ | d
        · left; rfl
        · right; exact ⟨_, rfl⟩

theorem updateLeaveStatus_shape (s : CanisterState) (env : Env) (id st : String) :
    (updateLeaveStatus s env id st).2 = s ∨ ∃ l, (updateLeaveStatus s env id st).1 = Except.ok l := by
  unfold updateLeaveStatus
  split
  · left; rfl
  · split
    · left; rfl
    · rcases _h : mapGet s.leaveStorage id with _ | leave
      · left; rfl
      · try dsimp only
        right; exact ⟨_, rfl⟩

/-- Claim C9: every public operation of the canister is total — it returns
either a success value or a labeled error string (the definitions above
are total functions, so no call crashes) — and whenever an operation
returns an error, the returned state is exactly the input state: every
error check precedes every write, with no exception (the acknowledged
`updateLeave` gap concerns missing re-validation on its success path, not
a partial write on an error path). -/
theorem C9_errors_leave_state_unchanged (s : CanisterState) (env : Env) :
    (∀ id msg, (getUser s env id).1 = Except.error msg → (getUser s env id).2 = s) ∧
    (∀ msg, (getUsers s env).1 = Except.error msg → (getUsers s env).2 = s) ∧
    (∀ p msg, (createUser s env p).1 = Except.error msg → (createUser s env p).2 = s) ∧
    (∀ p msg, (promoteUser s env p).1 = Except.error msg → (promoteUser s env p).2 = s) ∧
    (∀ p msg, (updateUser s env p).1 = Except.error msg → (updateUser s env p).2 = s) ∧
    (∀ msg, (getMyLeaveRequests s env).1 = Except.error msg → (getMyLeaveRequests s env).2 = s) ∧
    (∀ st msg, (getMyLeaveRequestsByStatus s env st).1 = Except.error msg →
      (getMyLeaveRequestsByStatus s env st).2 = s) ∧
    (∀ p msg, (requestLeave s env p).1 = Except.error msg → (requestLeave s env p).2 = s) ∧
    (∀ id p msg, (updateLeave s env id p).1 = Except.error msg → (updateLeave s env id p).2 = s) ∧
    (∀ id msg, (deleteLeave s env id).1 = Except.error msg → (deleteLeave s env id).2 = s) ∧
    (∀ id st msg, (updateLeaveStatus s env id st).1 = Except.error msg →
      (updateLeaveStatus s env id st).2 = s) := by
  refine ⟨?_, ?_, ?_, ?_, ?_, ?_, ?_, ?_, ?_, ?_, ?_⟩
  · intro id msg _
    exact getUser_shape s env id
  · intro msg _
    exact getUsers_shape s env
  · intro p msg h
    rcases createUser_shape s env p with h2 | ⟨u, hu⟩
    · exact h2
    · simp [hu] at h
  · intro p msg h
    rcases promoteUser_shape s env p with h2 | ⟨u, hu⟩
    · exact h2
    · simp [hu] at h
  · intro p msg h
    rcases updateUser_shape s env p with h2 | ⟨u, hu⟩
    · exact h2
    · simp [hu] at h
  · intro msg _
    exact getMyLeaveRequests_shape s env
  · intro st msg _
    exact getMyLeaveRequestsByStatus_shape s env st
  · intro p msg h
    rcases requestLeave_shape s env p with h2 | ⟨l, hl⟩
    · exact h2
    · simp [hl] at h
  · intro id p msg h
    rcases updateLeave_shape s env id p with h2 | ⟨l, hl⟩
    · exact h2
    · simp [hl] at h
  · intro id msg h
    rcases deleteLeave_shape s env id with h2 | ⟨l, hl⟩
    · exact h2
    · simp [hl] at h
  · intro id st msg h
    rcases updateLeaveStatus_shape s env id st with h2 | ⟨l, hl⟩
    · exact h2
    · simp [hl] at h

/-- Witness for C9: a non-admin calling `getUsers` gets the permission
error and the state is returned untouched. -/
theorem C9_errors_leave_state_unchanged_witness :
    (getUsers baseState (envFor "u")).1 =
      Except.error "You do not have the permission for this operation!" ∧
    (getUsers baseState (envFor "u")).2 = baseState := by
  refine ⟨by decide, ?_⟩
  exact (C9_errors_leave_state_unchanged baseState (envFor "u")).2.1
    "You do not have the permission for this operation!" (by decide)

/-- Claim C10 (implicit zero guards): balance adjustments are silently
skipped when the stored balance is exactly `0`
(`!user.Some.availableDays`) or when the adjusted result would be exactly
`0` (`if (payload.availableDays)`), while the enclosing operation still
reports success: a `REJECTED` refund and a pending-delete refund for a
zero-balance owner leave the balance at `0`, and a request consuming the
entire remaining balance leaves `availableDays` unchanged. -/
theorem C10_zero_balance_adjustments_skipped (s : CanisterState) (env : Env) :
    (∀ id leave owner,
      isAdmin s env = true → env.isValidUUID id = true →
      mapGet s.leaveStorage id = some leave →
      mapGet s.userStorage leave.userId = some owner →
      owner.availableDays = 0 →
      (updateLeaveStatus s env id LeaveStatuses.REJECTED).1.isOk = true ∧
      (updateLeaveStatus s env id LeaveStatuses.REJECTED).2.userStorage = s.userStorage) ∧
    (∀ id leave owner,
      env.isValidUUID id = true →
      mapGet s.leaveStorage id = some leave →
      leave.status = LeaveStatuses.PENDING →
      mapGet s.userStorage leave.userId = some owner →
      owner.availableDays = 0 →
      (deleteLeave s env id).1.isOk = true ∧
      (deleteLeave s env id).2.userStorage = s.userStorage) ∧
    (∀ (payload : LeavePayload) (user : User),
      mapGet s.userStorage env.caller = some user →
      user.id = env.caller →
      isActive s env = true →
      payload.startDate < payload.endDate →
      env.getFullYear payload.startDate = env.currentYear →
      env.getFullYear payload.endDate = env.currentYear →
      findDiffInDays payload.startDate payload.endDate = user.availableDays →
      (requestLeave s env payload).1.isOk = true ∧
      (mapGet (requestLeave s env payload).2.userStorage env.caller).map User.availableDays =
        some user.availableDays) := by
  refine ⟨?_, ?_, ?_⟩
  · intro id leave owner hAdm hUuid hLeave hOwner hZero
    unfold updateLeaveStatus updateUsersAvailableDays
    simp only [hAdm, hUuid, hLeave, hOwner, hZero, not_true, Bool.not_eq_true, ite_true, ite_false]
    constructor <;> simp [Except.isOk, Except.toBool]
  · intro id leave owner hUuid hLeave hPend hOwner hZero
    have hrem1 := mapRemove_fst s.leaveStorage id
    rw [hLeave] at hrem1
    unfold deleteLeave updateUsersAvailableDays
    rcases hrem : mapRemove s.leaveStorage id with ⟨o, rest⟩
    rw [hrem] at hrem1
    simp only at hrem1
    subst hrem1
    simp only [hUuid, hLeave, hrem, hPend, hOwner, hZero, not_true, Bool.not_eq_true,
      ite_true, ite_false]
    constructor <;>
      simp [Except.isOk, Except.toBool, LeaveStatuses.PENDING, hPend, hOwner, hZero]
  · intro payload user hUser hKey hAct hDates hy1 hy2 hEq
    have hpos := findDiffInDays_pos payload.startDate payload.endDate
    unfold requestLeave updateUsersAvailableDays updateUserParams
    simp only [hUser]
    rw [if_neg (by simp [hAct]), if_neg (not_le.mpr hDates), if_neg (by omega),
      if_neg (by omega), if_neg (by simp [hy1, hy2])]
    simp only [hUser, hEq, sub_self, userWithProfileFields_balanceOnly, hKey,
      mapGet_mapInsert_self]
    constructor
    · simp [Except.isOk, Except.toBool]
    · by_cases hz : user.availableDays = 0 <;> simp [hz, hUser, mapGet_mapInsert_self]

/-- Witness for C10: the three skipped-adjustment scenarios at concrete
states — rejecting and deleting the pending leave of a zero-balance owner
both succeed leaving the user map untouched, and a 4-day request by a
4-day employee succeeds leaving the balance at 4. -/
theorem C10_zero_balance_adjustments_skipped_witness :
    ((updateLeaveStatus zeroBalanceState (envFor "a") "leave-1" LeaveStatuses.REJECTED).1.isOk = true ∧
      (updateLeaveStatus zeroBalanceState (envFor "a") "leave-1" LeaveStatuses.REJECTED).2.userStorage =
        zeroBalanceState.userStorage) ∧
    ((deleteLeave zeroBalanceState (envFor "u") "leave-1").1.isOk = true ∧
      (deleteLeave zeroBalanceState (envFor "u") "leave-1").2.userStorage =
        zeroBalanceState.userStorage) ∧
    ((requestLeave fourDayState (envFor "u") { startDate := 0, endDate := 345600000 }).1.isOk = true ∧
      (mapGet (requestLeave fourDayState (envFor "u")
          { startDate := 0, endDate := 345600000 }).2.userStorage "u").map User.availableDays =
        some 4) := by
  refine ⟨?_, ?_, ?_⟩
  · exact (C10_zero_balance_adjustments_skipped zeroBalanceState (envFor "a")).1 "leave-1"
      pendingLeave { employeeUser with availableDays := 0 } (by decide) (by decide) (by decide)
      (by decide) (by decide)
  · exact (C10_zero_balance_adjustments_skipped zeroBalanceState (envFor "u")).2.1 "leave-1"
      pendingLeave { employeeUser with availableDays := 0 } (by decide) (by decide) (by decide)
      (by decide) (by decide)
  · exact (C10_zero_balance_adjustments_skipped fourDayState (envFor "u")).2.2
      { startDate := 0, endDate := 345600000 } { employeeUser with availableDays := 4 }
      (by decide) (by decide) (by decide) (by decide) (by decide) (by decide) (by decide)
